import Mathlib

/-!
Shallow embedding of the vsphere_exporter metric-collection engine.

The Go source converts vSphere inventory objects (ESXi hosts, datastores)
into Prometheus gauge samples.  Machine `float64` values produced by the
value-extraction functions are modelled as `Int`: every extractor in the
source computes an integer quantity (byte counts, MHz, 0/1 flags) via
conversions that are exact for the magnitudes involved (all below 2^53),
so integer arithmetic is a faithful model.  The external inventory service
(govmomi) is modelled by environment records carrying each remote call's
outcome (`Option` = success with data / error).  Goroutine nondeterminism
is modelled by an explicit schedule that merges the per-task event lists;
theorems quantify over all schedules.
-/

namespace Vsphere

/-- Mirrors govmomi `HostConfigSummary` (field `Name` of `h.Summary.Config`). -/
structure HostConfigSummary where
  name : String
deriving DecidableEq, Repr

/-- Mirrors govmomi `HostHardwareSummary`: `MemorySize` (bytes, int64),
`CpuMhz` (int32), `NumCpuCores` (int16). -/
structure HostHardwareSummary where
  memorySize : Int
  cpuMhz : Int
  numCpuCores : Int
deriving DecidableEq, Repr

/-- Mirrors govmomi `HostListSummaryQuickStats`: `OverallMemoryUsage`
(MiB, int32), `OverallCpuUsage` (MHz, int32). -/
structure HostQuickStats where
  overallMemoryUsage : Int
  overallCpuUsage : Int
deriving DecidableEq, Repr

/-- Mirrors govmomi `HostRuntimeInfo` (field `ConnectionState`). -/
structure HostRuntimeInfo where
  connectionState : String
deriving DecidableEq, Repr

/-- Mirrors govmomi `HostListSummary` (`h.Summary`). -/
structure HostSummary where
  config : HostConfigSummary
  hardware : HostHardwareSummary
  quickStats : HostQuickStats
  runtime : HostRuntimeInfo
deriving DecidableEq, Repr

/-- Mirrors `mo.HostSystem` restricted to the `summary` property, the only
property the exporter retrieves. -/
structure HostSystem where
  summary : HostSummary
deriving DecidableEq, Repr

/-- Mirrors govmomi `DatastoreSummary`: `Name`, `Capacity` (bytes, int64),
`FreeSpace` (bytes, int64), `Accessible` (bool). -/
structure DatastoreSummary where
  name : String
  capacity : Int
  freeSpace : Int
  accessible : Bool
deriving DecidableEq, Repr

/-- Mirrors `mo.Datastore` restricted to the `summary` property. -/
structure Datastore where
  summary : DatastoreSummary
deriving DecidableEq, Repr

/-- Go zero value of `mo.HostSystem` (all strings empty, all numbers 0):
the per-object retrieval loop in one revision of `collectHostMetrics`
emits metrics from this zero value when `host.Properties` fails. -/
def zeroHostSystem : HostSystem :=
  { summary :=
    { config := { name := "" }
      hardware := { memorySize := 0, cpuMhz := 0, numCpuCores := 0 }
      quickStats := { overallMemoryUsage := 0, overallCpuUsage := 0 }
      runtime := { connectionState := "" } } }

/-! ## Value- and label-extraction registries

The source stores these as anonymous functions in string-keyed maps
(`hostMetricGetterFuncRegistry`, etc.); each map entry is embedded as a
named function carrying its registry key. -/

/-- Registry entry "getMemorySize": `float64(units.ByteSize(h.Summary.Hardware.MemorySize))`.
`units.ByteSize` is a `float64` newtype, so this is the identity on the value. -/
def getMemorySize (h : HostSystem) : Int := h.summary.hardware.memorySize

/-- Registry entry "getMemoryUsage":
`float64(units.ByteSize(h.Summary.QuickStats.OverallMemoryUsage) * 1024 * 1024)`. -/
def getMemoryUsage (h : HostSystem) : Int :=
  h.summary.quickStats.overallMemoryUsage * 1024 * 1024

/-- Registry entry "getCPUTotal":
`float64(int64(h.Summary.Hardware.CpuMhz) * int64(h.Summary.Hardware.NumCpuCores))`. -/
def getCPUTotal (h : HostSystem) : Int :=
  h.summary.hardware.cpuMhz * h.summary.hardware.numCpuCores

/-- Registry entry "getCpuUsage": `float64(h.Summary.QuickStats.OverallCpuUsage)`. -/
def getCpuUsage (h : HostSystem) : Int := h.summary.quickStats.overallCpuUsage

/-- Registry entry "getConnectedState": 1 when `ConnectionState == "connected"`, else 0. -/
def getConnectedState (h : HostSystem) : Int :=
  if h.summary.runtime.connectionState = "connected" then 1 else 0

/-- Registry entry "getDisconnectedState": 1 when `ConnectionState == "disconnected"`, else 0. -/
def getDisconnectedState (h : HostSystem) : Int :=
  if h.summary.runtime.connectionState = "disconnected" then 1 else 0

/-- Registry entry "getNotRespondingState": 1 when `ConnectionState == "notResponding"`, else 0. -/
def getNotRespondingState (h : HostSystem) : Int :=
  if h.summary.runtime.connectionState = "notResponding" then 1 else 0

/-- Registry entry "getHostName": `h.Summary.Config.Name`. -/
def getHostName (h : HostSystem) : String := h.summary.config.name

/-- Registry entry "getCapacity": `float64(units.ByteSize(d.Summary.Capacity))`. -/
def getCapacity (d : Datastore) : Int := d.summary.capacity

/-- Registry entry "getFreeSpace": `float64(units.ByteSize(d.Summary.FreeSpace))`. -/
def getFreeSpace (d : Datastore) : Int := d.summary.freeSpace

/-- Registry entry "getAccessibility": 1 when `d.Summary.Accessible`, else 0. -/
def getAccessibility (d : Datastore) : Int :=
  if d.summary.accessible then 1 else 0

/-- Registry entry "getDatastoreName": `d.Summary.Name`. -/
def getDatastoreName (d : Datastore) : String := d.summary.name

/-! ## Metric definitions -/

/-- Mirrors `vsphereHostMetric`: a Prometheus descriptor (name, help,
label names) plus the value getter and the label getters. -/
structure HostMetric where
  name : String
  help : String
  labelNames : List String
  metricGetter : HostSystem → Int
  labelsGetter : List (HostSystem → String)

/-- Mirrors `newVsphereHostMetric`. -/
def newVsphereHostMetric (name description : String) (labels : List String)
    (metricGetter : HostSystem → Int)
    (labelsGetter : List (HostSystem → String)) : HostMetric :=
  { name := name, help := description, labelNames := labels
    metricGetter := metricGetter, labelsGetter := labelsGetter }

/-- Mirrors `vsphereDatastoreMetric`. -/
structure DatastoreMetric where
  name : String
  help : String
  labelNames : List String
  metricGetter : Datastore → Int
  labelsGetter : List (Datastore → String)

/-- Mirrors `newVsphereDatastoreMetric`. -/
def newVsphereDatastoreMetric (name description : String) (labels : List String)
    (metricGetter : Datastore → Int)
    (labelsGetter : List (Datastore → String)) : DatastoreMetric :=
  { name := name, help := description, labelNames := labels
    metricGetter := metricGetter, labelsGetter := labelsGetter }

/-- Mirrors `hostLabelValues = []hostLabelGetter{registry["getHostName"]}`
(identical in every revision). -/
def hostLabelValues : List (HostSystem → String) := [getHostName]

/-- Mirrors `datastoreLabelValues = []datastoreLabelGetter{registry["getDatastoreName"]}`. -/
def datastoreLabelValues : List (Datastore → String) := [getDatastoreName]

/-- The seven host metric definitions of the source's `hostMetrics` package
variable, with the metric-name prefix constant `esxi_` already applied as at
each `newVsphereHostMetric` call site.  The source revisions differ only in
the `hostLabelNames` value, so that is a parameter here. -/
def mkHostMetrics (labels : List String) : List HostMetric :=
  [ newVsphereHostMetric "esxi_memory_total_bytes" "Size of the esxi memory" labels
      getMemorySize hostLabelValues,
    newVsphereHostMetric "esxi_memory_usage_bytes" "Memory usage of the ESXi host" labels
      getMemoryUsage hostLabelValues,
    newVsphereHostMetric "esxi_cpu_total_mhz" "Total cpu available" labels
      getCPUTotal hostLabelValues,
    newVsphereHostMetric "esxi_cpu_usage_mhz" "CPU usage" labels
      getCpuUsage hostLabelValues,
    newVsphereHostMetric "esxi_connected_state" "Esxi host connected state" labels
      getConnectedState hostLabelValues,
    newVsphereHostMetric "esxi_disconnected_state" "Esxi host connected state" labels
      getDisconnectedState hostLabelValues,
    newVsphereHostMetric "esxi_not_responding_state" "Esxi host connected state" labels
      getNotRespondingState hostLabelValues ]

/-- `hostLabelNames` of the hierarchical (cluster-walking) revision:
`[]string{"name", "datacenter", "cluster"}`. -/
def hostLabelNames : List String := ["name", "datacenter", "cluster"]

/-- `hostLabelNames` of the container-view revision: `[]string{"host"}`. -/
def hostLabelNamesView : List String := ["host"]

/-- `hostLabelNames` of the per-object-retrieval revision:
`[]string{"host", "datacenter", "cluster"}`. -/
def hostLabelNamesPerObj : List String := ["host", "datacenter", "cluster"]

/-- `hostMetrics` as constructed in the hierarchical revision. -/
def hostMetrics : List HostMetric := mkHostMetrics hostLabelNames

/-- `hostMetrics` as constructed in the container-view revision. -/
def hostMetricsView : List HostMetric := mkHostMetrics hostLabelNamesView

/-- `hostMetrics` as constructed in the per-object-retrieval revision. -/
def hostMetricsPerObj : List HostMetric := mkHostMetrics hostLabelNamesPerObj

/-- The three datastore metric definitions of `datastoreMetrics`, with the
`datastore_` prefix applied; parameterised by `datastoreLabelNames` (the
revisions differ only there). -/
def mkDatastoreMetrics (labels : List String) : List DatastoreMetric :=
  [ newVsphereDatastoreMetric "datastore_capacity_bytes" "Datastore capacity" labels
      getCapacity datastoreLabelValues,
    newVsphereDatastoreMetric "datastore_free_space_bytes" "Datastore free space" labels
      getFreeSpace datastoreLabelValues,
    newVsphereDatastoreMetric "datastore_accessibility" "Datastore connectivity status" labels
      getAccessibility datastoreLabelValues ]

/-- `datastoreLabelNames` of the finder (per-datacenter) revision:
`[]string{"name", "datacenter"}`. -/
def datastoreLabelNames : List String := ["name", "datacenter"]

/-- `datastoreMetrics` as constructed in the finder revision. -/
def datastoreMetrics : List DatastoreMetric := mkDatastoreMetrics datastoreLabelNames

/-! ## Samples and task events -/

/-- An emitted Prometheus sample: `prometheus.MustNewConstMetric(desc,
GaugeValue, value, labelValues...)` keyed by the descriptor's metric name. -/
structure Sample where
  name : String
  value : Int
  labelValues : List String
deriving DecidableEq, Repr

/-- One observable action of a collection task: sending a sample on the
output channel, assigning the shared `e.vcenterAvailable` field, or making
one remote call to the inventory service (identified by the govmomi method
used). -/
inductive Ev where
  | emit (s : Sample)
  | setAvail (v : Int)
  | call (target : String)
deriving DecidableEq, Repr

/-- The sample built for host metric `m` from snapshot `h`:
label values are the label-getter outputs followed by the extra
hierarchy-derived values appended at the emission site. -/
def hostSampleOf (m : HostMetric) (extra : List String) (h : HostSystem) : Sample :=
  { name := m.name, value := m.metricGetter h
    labelValues := (m.labelsGetter.map fun g => g h) ++ extra }

/-- The sample built for datastore metric `m` from snapshot `d`. -/
def datastoreSampleOf (m : DatastoreMetric) (extra : List String) (d : Datastore) : Sample :=
  { name := m.name, value := m.metricGetter d
    labelValues := (m.labelsGetter.map fun g => g d) ++ extra }

/-- Effect of one event on the shared availability value. -/
def applyEv (a : Int) : Ev → Int
  | Ev.setAvail v => v
  | _ => a

/-- The samples sent on the channel by a list of events, in order. -/
def evSamples (evs : List Ev) : List Sample :=
  evs.filterMap fun ev =>
    match ev with
    | Ev.emit s => some s
    | _ => none

/-- The values written to the shared availability field, in order. -/
def availWrites (evs : List Ev) : List Int :=
  evs.filterMap fun ev =>
    match ev with
    | Ev.setAvail v => some v
    | _ => none

/-- Whether an event is a property-snapshot retrieval call (`pc.Retrieve`,
`view.Retrieve` or per-object `host.Properties`), as opposed to an
object-listing call. -/
def Ev.isPropertyRetrieval : Ev → Bool
  | Ev.call s => s = "Retrieve" || s = "Properties"
  | _ => false

/-- Number of property-retrieval round trips performed by a task. -/
def propertyRetrievalCalls (evs : List Ev) : Nat :=
  evs.countP Ev.isPropertyRetrieval

/-! ## Environments: outcomes of the external inventory calls -/

/-- Outcome of the calls made for one cluster by
`collectHostMetricFromCluster`: `cluster.Hosts` returns a reference list
(names only are observable), and `pc.Retrieve` returns the summaries. -/
structure ClusterEnv where
  name : String
  hostsResult : Option (List String)
  retrieveResult : Option (List HostSystem)
deriving DecidableEq, Repr

/-- Outcome of the per-datacenter calls, plus the goroutine schedule used
to merge the per-cluster task outputs of this datacenter's host task. -/
structure DatacenterEnv where
  name : String
  clustersResult : Option (List ClusterEnv)
  hostSched : List Nat
  datastoresResult : Option (List String)
  dsRetrieveResult : Option (List Datastore)
deriving DecidableEq, Repr

/-- Outcome of `f.DatacenterList` for one poll. -/
structure CollectEnv where
  datacentersResult : Option (List DatacenterEnv)
deriving DecidableEq, Repr

/-! ## Schedules: merging concurrent task event lists -/

/-- One scheduling step: pop the head event of task `i`, if any. -/
def popAt (tss : List (List Ev)) (i : Nat) : Option (Ev × List (List Ev)) :=
  match tss.get? i with
  | some (x :: rest) => some (x, tss.set i rest)
  | _ => none

/-- Merge the event lists of concurrently running tasks according to a
schedule (a sequence of task indices).  Each task's own events stay in
program order; once the schedule is exhausted the remaining events are
flushed in task order (every real execution corresponds to some schedule,
since the orchestrator joins all tasks before proceeding). -/
def mergeBySchedule : List Nat → List (List Ev) → List Ev
  | [], tss => tss.flatten
  | i :: sched, tss =>
    match popAt tss i with
    | some (x, rest) => x :: mergeBySchedule sched rest
    | none => mergeBySchedule sched tss

/-! ## Collection tasks (one Lean definition per Go function) -/

/-- `collectHostMetricFromCluster` (hierarchical revision): calls
`cluster.Hosts`; on error returns.  With a non-empty host list it makes one
bulk `pc.Retrieve` call; on retrieval error it only logs, so the summary
slice stays empty and the emission loop emits nothing.  Each emission
appends the datacenter name and the cluster name to the getter-supplied
label values. -/
def collectHostMetricFromCluster (dcName : String) (c : ClusterEnv) : List Ev :=
  Ev.call "Hosts" ::
  match c.hostsResult with
  | none => []
  | some hosts =>
    if hosts.length > 0 then
      Ev.call "Retrieve" ::
      match c.retrieveResult with
      | none => []
      | some hs =>
        hs.flatMap fun h => hostMetrics.map fun m => Ev.emit (hostSampleOf m [dcName, c.name] h)
    else []

/-- `collectHostMetrics` (hierarchical revision): lists clusters (on error
returns), then spawns one `collectHostMetricFromCluster` goroutine per
cluster and waits for all of them; their outputs interleave by the
schedule. -/
def collectHostMetrics (dcName : String) (clustersResult : Option (List ClusterEnv))
    (sched : List Nat) : List Ev :=
  Ev.call "ClusterList" ::
  match clustersResult with
  | none => []
  | some cs => mergeBySchedule sched (cs.map (collectHostMetricFromCluster dcName))

/-- `collectDatastoreMetrics` (finder revision): calls `f.DatastoreList`
(on error returns); with a non-empty list makes one bulk `pc.Retrieve`
call (on error returns); each emission appends the datacenter name.
Neither failure branch writes the shared availability value. -/
def collectDatastoreMetrics (dcName : String) (d : DatacenterEnv) : List Ev :=
  Ev.call "DatastoreList" ::
  match d.datastoresResult with
  | none => []
  | some dsRefs =>
    if dsRefs.length > 0 then
      Ev.call "Retrieve" ::
      match d.dsRetrieveResult with
      | none => []
      | some ds =>
        ds.flatMap fun dd => datastoreMetrics.map fun m => Ev.emit (datastoreSampleOf m [dcName] dd)
    else []

/-- `collectHostMetrics` of the container-view revision in host.go (renamed
here to avoid the clash): one bulk `e.hostView.Retrieve` call; on error it
writes 0 to `e.vcenterAvailable`, on success it writes 1 and emits every
host metric with only the getter-supplied label values. -/
def collectHostMetricsView (retrieveResult : Option (List HostSystem)) : List Ev :=
  Ev.call "Retrieve" ::
  match retrieveResult with
  | none => [Ev.setAvail 0]
  | some hs =>
    Ev.setAvail 1 ::
    (hs.flatMap fun h => hostMetricsView.map fun m => Ev.emit (hostSampleOf m [] h))

/-- Per-cluster call outcomes for the per-object-retrieval revision of
`collectHostMetrics`: `cluster.Hosts` yields one entry per member host,
each entry being that host's own `host.Properties` outcome. -/
structure PerObjClusterEnv where
  name : String
  hostsResult : Option (List (Option HostSystem))
deriving DecidableEq, Repr

/-- Cluster loop of the per-object-retrieval revision: `c.Hosts` error
aborts the whole loop (early `return`); otherwise one `host.Properties`
call per host, and on a per-host error the loop logs and emits the metrics
of the zero-valued snapshot.  (The source's second `if err != nil` branch
writing availability is unreachable: the same error was already returned
on.) -/
def collectHostMetricsPerObjectLoop (dcName : String) : List PerObjClusterEnv → List Ev
  | [] => []
  | c :: rest =>
    Ev.call "Hosts" ::
    match c.hostsResult with
    | none => []
    | some hres =>
      (hres.flatMap fun r =>
        Ev.call "Properties" ::
        hostMetricsPerObj.map fun m =>
          Ev.emit (hostSampleOf m [dcName, c.name] (r.getD zeroHostSystem))) ++
      collectHostMetricsPerObjectLoop dcName rest

/-- `collectHostMetrics` of the per-object-retrieval revision (renamed here
to avoid the clash): lists clusters, then runs the sequential cluster
loop. -/
def collectHostMetricsPerObject (dcName : String)
    (clustersResult : Option (List PerObjClusterEnv)) : List Ev :=
  Ev.call "ClusterList" ::
  match clustersResult with
  | none => []
  | some cs => collectHostMetricsPerObjectLoop dcName cs

/-! ## The exporter and its Collect method -/

/-- The mutable fields of `Exporter` the collection pipeline touches: the
`up` gauge's current value and `vcenterAvailable`. -/
structure ExporterState where
  upValue : Int
  vcenterAvailable : Int
deriving DecidableEq, Repr

/-- State built by `NewExporter`: `vcenterAvailable: 1`, and the `up`
gauge fresh from `prometheus.NewGauge`, whose value starts at the library
default 0 (the program never calls `Set` on it). -/
def newExporterState : ExporterState := { upValue := 0, vcenterAvailable := 1 }

/-- The `up` gauge sample `ch <- e.up`: name `vsphere_up` (namespace
`vsphere`, name `up`), no labels, carrying the gauge's current value. -/
def upSample (e : ExporterState) : Sample :=
  { name := "vsphere_up", value := e.upValue, labelValues := [] }

/-- The availability sample: `prometheus.NewDesc("vcenter_available", ...)`
with no labels. -/
def availabilitySample (v : Int) : Sample :=
  { name := "vcenter_available", value := v, labelValues := [] }

/-- The two goroutines Collect spawns for one datacenter. -/
def dcTaskEvs (d : DatacenterEnv) : List (List Ev) :=
  [collectHostMetrics d.name d.clustersResult d.hostSched,
   collectDatastoreMetrics d.name d]

/-- `Exporter.Collect`: sends `e.up` first; lists datacenters — on error
sets `vcenterAvailable` to 0 and returns (emitting nothing further).  On
success it sets `vcenterAvailable` to 1, spawns a host task and a
datastore task per datacenter, waits on the barrier, and finally sends the
`vcenter_available` sample with the availability value left by the
interleaved task writes. -/
def Collect (e : ExporterState) (env : CollectEnv) (sched : List Nat) :
    List Sample × ExporterState :=
  match env.datacentersResult with
  | none => ([upSample e], { e with vcenterAvailable := 0 })
  | some dcs =>
    let evs := mergeBySchedule sched (dcs.flatMap dcTaskEvs)
    let finalAvail := evs.foldl applyEv 1
    (upSample e :: (evSamples evs ++ [availabilitySample finalAvail]),
     { e with vcenterAvailable := finalAvail })

/-- A sequence of polls: each scrape runs `Collect` on the state left by
the previous one, under that poll's environment and schedule. -/
def runPolls (e : ExporterState) : List (CollectEnv × List Nat) → ExporterState
  | [] => e
  | p :: ps => runPolls (Collect e p.1 p.2).2 ps

/-- All partitions of this datacenter exist but are empty: cluster listing
succeeded with every listed cluster reporting zero member hosts, and
datastore listing succeeded with zero datastores. -/
def DatacenterEnv.allPartitionsEmpty (d : DatacenterEnv) : Bool :=
  (match d.clustersResult with
   | some cs => cs.all fun c => decide (c.hostsResult = some [])
   | none => false)
  && decide (d.datastoresResult = some [])

/-! ## Concrete fixtures (the spec's concrete scenarios) -/

/-- A host snapshot with the concrete values of the spec's host scenario:
memory 17179869184 bytes, usage 2048 MiB, 2600 MHz times 8 cores, usage
1200 MHz, state connected. -/
def scenarioHost (hostName : String) : HostSystem :=
  { summary :=
    { config := { name := hostName }
      hardware := { memorySize := 17179869184, cpuMhz := 2600, numCpuCores := 8 }
      quickStats := { overallMemoryUsage := 2048, overallCpuUsage := 1200 }
      runtime := { connectionState := "connected" } } }

/-- A datastore snapshot with the concrete values of the spec's datastore
scenario: capacity 1000000000000 bytes, free 250000000000 bytes, not
accessible. -/
def scenarioDatastore (dsName : String) : Datastore :=
  { summary :=
    { name := dsName, capacity := 1000000000000, freeSpace := 250000000000
      accessible := false } }

/-- Fixed host snapshot used in concrete counterexamples and witnesses. -/
def testHost : HostSystem := scenarioHost "host1"

/-- Fixed datastore snapshot used in concrete counterexamples and witnesses. -/
def testDatastore : Datastore := scenarioDatastore "ds1"

/-! ## General lemmas about schedules and events -/

/-- Removing the head of the list stored at index `i` and re-prepending it
to the flattening is a permutation of the original flattening. -/
theorem flatten_set_perm {α : Type} :
    ∀ (tss : List (List α)) (i : Nat) (x : α) (rest : List α),
      tss.get? i = some (x :: rest) →
      tss.flatten.Perm (x :: (tss.set i rest).flatten)
  | [], i, _, _, h => by simp [List.get?] at h
  | t :: ts, 0, x, rest, h => by
      have ht : t = x :: rest := by simpa using h
      subst ht
      simp only [List.set_cons_zero, List.flatten_cons, List.cons_append]
      exact List.Perm.refl _
  | t :: ts, i + 1, x, rest, h => by
      have h2 : ts.get? i = some (x :: rest) := by simpa using h
      have ih := flatten_set_perm ts i x rest h2
      simp only [List.set_cons_succ, List.flatten_cons]
      exact (ih.append_left t).trans List.perm_middle

/-- Every schedule-driven merge of the task event lists is a permutation
of their concatenation. -/
theorem mergeBySchedule_perm :
    ∀ (sched : List Nat) (tss : List (List Ev)),
      (mergeBySchedule sched tss).Perm tss.flatten
  | [], _ => List.Perm.refl _
  | i :: sched, tss => by
      rw [mergeBySchedule]
      rcases hget : tss.get? i with _ | ts
      · rw [popAt, hget]
        exact mergeBySchedule_perm sched tss
      · rcases ts with _ | ⟨x, rest⟩
        · rw [popAt, hget]
          exact mergeBySchedule_perm sched tss
        · rw [popAt, hget]
          exact ((mergeBySchedule_perm sched (tss.set i rest)).cons x).trans
            (flatten_set_perm tss i x rest hget).symm

/-- A sample is among the emitted samples of an event list exactly when the
corresponding emission event occurs in it. -/
theorem mem_evSamples {s : Sample} {evs : List Ev} :
    s ∈ evSamples evs ↔ Ev.emit s ∈ evs := by
  simp only [evSamples, List.mem_filterMap]
  constructor
  · rintro ⟨ev, hmem, hev⟩
    cases ev <;> simp_all
  · intro h
    exact ⟨Ev.emit s, h, rfl⟩

/-- A value is among the availability writes of an event list exactly when
the corresponding assignment event occurs in it. -/
theorem mem_availWrites {v : Int} {evs : List Ev} :
    v ∈ availWrites evs ↔ Ev.setAvail v ∈ evs := by
  simp only [availWrites, List.mem_filterMap]
  constructor
  · rintro ⟨ev, hmem, hev⟩
    cases ev <;> simp_all
  · intro h
    exact ⟨Ev.setAvail v, h, rfl⟩

/-- If every availability write in the event list writes the current
value, the final availability value is unchanged. -/
theorem foldl_applyEv_of_writes {a : Int} :
    ∀ {evs : List Ev}, (∀ v : Int, Ev.setAvail v ∈ evs → v = a) →
      evs.foldl applyEv a = a
  | [], _ => rfl
  | ev :: evs, h => by
      cases ev with
      | setAvail v =>
        have hv : v = a := h v (by simp)
        rw [List.foldl_cons]
        show List.foldl applyEv v evs = a
        rw [hv]
        exact foldl_applyEv_of_writes fun w hw => h w (List.mem_cons_of_mem _ hw)
      | emit s =>
        rw [List.foldl_cons]
        exact foldl_applyEv_of_writes fun w hw => h w (List.mem_cons_of_mem _ hw)
      | call t =>
        rw [List.foldl_cons]
        exact foldl_applyEv_of_writes fun w hw => h w (List.mem_cons_of_mem _ hw)

/-- A block of emission events carries no availability write. -/
theorem availWrites_emits {α β : Type} (l : List α) (ms : List β) (f : β → α → Sample) :
    availWrites (l.flatMap fun x => ms.map fun m => Ev.emit (f m x)) = [] := by
  rw [availWrites, List.filterMap_eq_nil_iff]
  intro ev hev
  simp only [List.mem_flatMap, List.mem_map] at hev
  rcases hev with ⟨x, _, m, _, rfl⟩
  rfl

/-- A block of emission events carries no retrieval call. -/
theorem retrievalCalls_emits {α β : Type} (l : List α) (ms : List β) (f : β → α → Sample) :
    propertyRetrievalCalls (l.flatMap fun x => ms.map fun m => Ev.emit (f m x)) = 0 := by
  rw [propertyRetrievalCalls, List.countP_eq_zero]
  intro ev hev
  simp only [List.mem_flatMap, List.mem_map] at hev
  rcases hev with ⟨x, _, m, _, rfl⟩
  simp [Ev.isPropertyRetrieval]

/-- A mapped block of emission events carries no retrieval call. -/
theorem retrievalCalls_emitMap {β : Type} (ms : List β) (f : β → Sample) :
    propertyRetrievalCalls (ms.map fun m => Ev.emit (f m)) = 0 := by
  rw [propertyRetrievalCalls, List.countP_eq_zero]
  intro ev hev
  simp only [List.mem_map] at hev
  rcases hev with ⟨m, _, rfl⟩
  simp [Ev.isPropertyRetrieval]

/-- The emitted samples of a mapped block of emission events are the
samples it was built from. -/
theorem evSamples_emitMap {β : Type} (ms : List β) (g : β → Sample) :
    evSamples (ms.map fun m => Ev.emit (g m)) = ms.map g := by
  induction ms with
  | nil => rfl
  | cons m msTail ih =>
    simp only [List.map_cons, evSamples, List.filterMap_cons] at *
    rw [ih]

/-- The emitted samples of a block of emission events are exactly the
samples it was built from. -/
theorem evSamples_emits {α β : Type} (l : List α) (ms : List β) (f : β → α → Sample) :
    evSamples (l.flatMap fun x => ms.map fun m => Ev.emit (f m x)) =
      l.flatMap fun x => ms.map fun m => f m x := by
  induction l with
  | nil => rfl
  | cons x xs ih =>
    simp only [List.flatMap_cons, evSamples, List.filterMap_append] at *
    rw [ih]
    congr 1
    exact evSamples_emitMap ms fun m => f m x

/-! ## Which sample names the tasks can emit -/

/-- Sample names emitted by `collectHostMetricFromCluster` come from the
host metric registry. -/
theorem emit_name_host_cluster {dcName : String} {c : ClusterEnv} {s : Sample}
    (h : Ev.emit s ∈ collectHostMetricFromCluster dcName c) :
    s.name ∈ hostMetrics.map HostMetric.name := by
  rw [collectHostMetricFromCluster] at h
  rcases List.mem_cons.mp h with heq | h
  · exact absurd heq (by simp)
  · split at h
    · simp at h
    · split at h
      · rcases List.mem_cons.mp h with heq | h
        · exact absurd heq (by simp)
        · split at h
          · simp at h
          · simp only [List.mem_flatMap, List.mem_map, Ev.emit.injEq] at h
            rcases h with ⟨h2, _, m, hm, heq⟩
            rw [← heq]
            exact List.mem_map_of_mem HostMetric.name hm
      · simp at h

/-- Sample names emitted by the per-datacenter host task come from the
host metric registry. -/
theorem emit_name_host_task {dcName : String} {cr : Option (List ClusterEnv)}
    {sched : List Nat} {s : Sample}
    (h : Ev.emit s ∈ collectHostMetrics dcName cr sched) :
    s.name ∈ hostMetrics.map HostMetric.name := by
  rcases cr with _ | cs
  · have hrw : collectHostMetrics dcName none sched = [Ev.call "ClusterList"] := rfl
    rw [hrw] at h
    simp at h
  · have hrw : collectHostMetrics dcName (some cs) sched =
        Ev.call "ClusterList" ::
          mergeBySchedule sched (cs.map (collectHostMetricFromCluster dcName)) := rfl
    rw [hrw] at h
    rcases List.mem_cons.mp h with heq | h
    · exact absurd heq (by simp)
    · have h2 := (mergeBySchedule_perm sched
        (cs.map (collectHostMetricFromCluster dcName))).mem_iff.mp h
      rcases List.mem_flatten.mp h2 with ⟨l, hl, hmem⟩
      rcases List.mem_map.mp hl with ⟨c, _, rfl⟩
      exact emit_name_host_cluster hmem

/-- Sample names emitted by the datastore task come from the datastore
metric registry. -/
theorem emit_name_datastore_task {dcName : String} {d : DatacenterEnv} {s : Sample}
    (h : Ev.emit s ∈ collectDatastoreMetrics dcName d) :
    s.name ∈ datastoreMetrics.map DatastoreMetric.name := by
  rw [collectDatastoreMetrics] at h
  rcases List.mem_cons.mp h with heq | h
  · exact absurd heq (by simp)
  · split at h
    · simp at h
    · split at h
      · rcases List.mem_cons.mp h with heq | h
        · exact absurd heq (by simp)
        · split at h
          · simp at h
          · simp only [List.mem_flatMap, List.mem_map, Ev.emit.injEq] at h
            rcases h with ⟨dd, _, m, hm, heq⟩
            rw [← heq]
            exact List.mem_map_of_mem DatastoreMetric.name hm
      · simp at h

/-- Sample names emitted by either task of one datacenter come from the
two metric registries. -/
theorem emit_name_dcTask {d : DatacenterEnv} {evs : List Ev} {s : Sample}
    (hevs : evs ∈ dcTaskEvs d) (h : Ev.emit s ∈ evs) :
    s.name ∈ hostMetrics.map HostMetric.name ++ datastoreMetrics.map DatastoreMetric.name := by
  simp only [dcTaskEvs, List.mem_cons, List.not_mem_nil, or_false] at hevs
  rcases hevs with rfl | rfl
  · exact List.mem_append.mpr (Or.inl (emit_name_host_task h))
  · exact List.mem_append.mpr (Or.inr (emit_name_datastore_task h))

/-- None of the ten registered metric names is the availability gauge
name. -/
theorem namePool_ne_avail {n : String}
    (h : n ∈ hostMetrics.map HostMetric.name ++ datastoreMetrics.map DatastoreMetric.name) :
    n ≠ "vcenter_available" := by
  have hset : hostMetrics.map HostMetric.name ++ datastoreMetrics.map DatastoreMetric.name =
      ["esxi_memory_total_bytes", "esxi_memory_usage_bytes", "esxi_cpu_total_mhz",
       "esxi_cpu_usage_mhz", "esxi_connected_state", "esxi_disconnected_state",
       "esxi_not_responding_state", "datastore_capacity_bytes",
       "datastore_free_space_bytes", "datastore_accessibility"] := rfl
  rw [hset] at h
  simp only [List.mem_cons, List.not_mem_nil, or_false] at h
  rcases h with rfl | rfl | rfl | rfl | rfl | rfl | rfl | rfl | rfl | rfl <;> decide

/-- No sample produced by the poll's collection tasks carries the
availability gauge's name. -/
theorem evSamples_collect_ne_avail {dcs : List DatacenterEnv} {sched : List Nat} {s : Sample}
    (h : s ∈ evSamples (mergeBySchedule sched (dcs.flatMap dcTaskEvs))) :
    s.name ≠ "vcenter_available" := by
  have h1 := mem_evSamples.mp h
  have h2 := (mergeBySchedule_perm sched (dcs.flatMap dcTaskEvs)).mem_iff.mp h1
  rcases List.mem_flatten.mp h2 with ⟨evs, hevs, hmem⟩
  rcases List.mem_flatMap.mp hevs with ⟨d, _, hin⟩
  exact namePool_ne_avail (emit_name_dcTask hin hmem)

/-! ## Empty partitions -/

/-- A cluster listing zero hosts produces only its listing call. -/
theorem cluster_task_empty {dcName : String} {c : ClusterEnv}
    (h : c.hostsResult = some []) :
    collectHostMetricFromCluster dcName c = [Ev.call "Hosts"] := by
  simp [collectHostMetricFromCluster, h]

/-- A datacenter listing zero datastores produces only its listing call. -/
theorem datastore_task_empty {dcName : String} {d : DatacenterEnv}
    (h : d.datastoresResult = some []) :
    collectDatastoreMetrics dcName d = [Ev.call "DatastoreList"] := by
  simp [collectDatastoreMetrics, h]

/-- Under empty partitions, both tasks of a datacenter perform only
listing calls: no sample emissions and no availability writes. -/
theorem dcTask_calls_of_empty {d : DatacenterEnv} (hd : d.allPartitionsEmpty = true)
    {evs : List Ev} (hevs : evs ∈ dcTaskEvs d) {ev : Ev} (h : ev ∈ evs) :
    ∃ t, ev = Ev.call t := by
  rw [DatacenterEnv.allPartitionsEmpty, Bool.and_eq_true] at hd
  obtain ⟨hcl, hds⟩ := hd
  simp only [dcTaskEvs, List.mem_cons, List.not_mem_nil, or_false] at hevs
  rcases hevs with rfl | rfl
  · rcases hcr : d.clustersResult with _ | cs
    · rw [hcr] at hcl; simp at hcl
    · rw [hcr] at h hcl
      have hrw : collectHostMetrics d.name (some cs) d.hostSched =
          Ev.call "ClusterList" ::
            mergeBySchedule d.hostSched (cs.map (collectHostMetricFromCluster d.name)) := rfl
      rw [hrw] at h
      rcases List.mem_cons.mp h with rfl | h
      · exact ⟨"ClusterList", rfl⟩
      · have hmem := (mergeBySchedule_perm d.hostSched
          (cs.map (collectHostMetricFromCluster d.name))).mem_iff.mp h
        rcases List.mem_flatten.mp hmem with ⟨l, hl, hev2⟩
        rcases List.mem_map.mp hl with ⟨c, hc, rfl⟩
        have hce : c.hostsResult = some [] :=
          of_decide_eq_true (List.all_eq_true.mp hcl c hc)
        rw [cluster_task_empty hce] at hev2
        simp only [List.mem_singleton] at hev2
        exact ⟨"Hosts", hev2⟩
  · rw [datastore_task_empty (of_decide_eq_true hds)] at h
    simp only [List.mem_singleton] at h
    exact ⟨"DatastoreList", h⟩

/-- Emitted samples distribute over concatenation of event lists. -/
theorem evSamples_append (a b : List Ev) :
    evSamples (a ++ b) = evSamples a ++ evSamples b :=
  List.filterMap_append a b _

/-- Counting retrieval calls, stated at the `countP` level for rewriting. -/
theorem countP_retrieval_emits {α β : Type} (l : List α) (ms : List β) (f : β → α → Sample) :
    (l.flatMap fun x => ms.map fun m => Ev.emit (f m x)).countP Ev.isPropertyRetrieval = 0 :=
  retrievalCalls_emits l ms f

/-! ## Frame facts about Collect -/

/-- Collect never modifies the up gauge's value. -/
theorem collect_upValue (e : ExporterState) (env : CollectEnv) (sched : List Nat) :
    (Collect e env sched).2.upValue = e.upValue := by
  rcases henv : env.datacentersResult with _ | dcs <;> simp [Collect, henv]

/-- The first sample of every Collect invocation is the up gauge. -/
theorem collect_headSample (e : ExporterState) (env : CollectEnv) (sched : List Nat) :
    (Collect e env sched).1.head? = some (upSample e) := by
  rcases henv : env.datacentersResult with _ | dcs <;> simp [Collect, henv]

/-- No sequence of polls modifies the up gauge's value. -/
theorem runPolls_upValue : ∀ (polls : List (CollectEnv × List Nat)) (e : ExporterState),
    (runPolls e polls).upValue = e.upValue
  | [], _ => rfl
  | p :: ps, e => by
      show (runPolls (Collect e p.1 p.2).2 ps).upValue = e.upValue
      rw [runPolls_upValue ps, collect_upValue]

/-! ## Claim theorems -/

/-- Claim C10: the exporter's up gauge `vsphere_up` is emitted as the
first sample of every Collect invocation, but no operation ever assigns it
a value after construction, so after any sequence of polls its reported
value still equals its initial library default 0, regardless of scrape
success. -/
theorem upGauge_frame :
    newExporterState.upValue = 0 ∧
    (∀ (e : ExporterState) (env : CollectEnv) (sched : List Nat),
      (Collect e env sched).1.head? = some (upSample e) ∧
      (Collect e env sched).2.upValue = e.upValue) ∧
    (∀ polls : List (CollectEnv × List Nat),
      (runPolls newExporterState polls).upValue = 0) ∧
    (∀ (polls : List (CollectEnv × List Nat)) (env : CollectEnv) (sched : List Nat),
      (Collect (runPolls newExporterState polls) env sched).1.head? =
        some { name := "vsphere_up", value := 0, labelValues := [] }) := by
  refine ⟨rfl,
    fun e env sched => ⟨collect_headSample e env sched, collect_upValue e env sched⟩,
    fun polls => runPolls_upValue polls newExporterState,
    fun polls env sched => ?_⟩
  rw [collect_headSample]
  have hv : (runPolls newExporterState polls).upValue = 0 :=
    runPolls_upValue polls newExporterState
  simp [upSample, hv]

/-- Claim C3: on a host snapshot with memory 17179869184 bytes, usage
2048 MiB, 2600 MHz across 8 cores, CPU usage 1200 MHz and state
connected, and a datastore snapshot with capacity 1000000000000 bytes,
free space 250000000000 bytes and accessible false, the value extractors
yield exactly the expected gauge values. -/
theorem metricGetters_concrete (hostName dsName : String) :
    getMemorySize (scenarioHost hostName) = 17179869184 ∧
    getMemoryUsage (scenarioHost hostName) = 2147483648 ∧
    getCPUTotal (scenarioHost hostName) = 20800 ∧
    getCpuUsage (scenarioHost hostName) = 1200 ∧
    getConnectedState (scenarioHost hostName) = 1 ∧
    getDisconnectedState (scenarioHost hostName) = 0 ∧
    getNotRespondingState (scenarioHost hostName) = 0 ∧
    getCapacity (scenarioDatastore dsName) = 1000000000000 ∧
    getFreeSpace (scenarioDatastore dsName) = 250000000000 ∧
    getAccessibility (scenarioDatastore dsName) = 0 :=
  ⟨rfl, rfl, rfl, rfl, rfl, rfl, rfl, rfl, rfl, rfl⟩

/-- Claim C4: for each metric family, every emitted sample carries exactly
as many label values (getter outputs plus appended hierarchy-derived
values, as at the emission sites) as its descriptor declares label names.
Covers the hierarchical host family (two appended values), the finder
datastore family (one appended value), the container-view host family (no
appended value) and the per-object host family (two appended values). -/
theorem labelCount_invariant (h : HostSystem) (d : Datastore) (dcName clusterName : String) :
    (((hostMetrics.map fun m => hostSampleOf m [dcName, clusterName] h).zip hostMetrics).all
        fun p => p.1.labelValues.length == p.2.labelNames.length) = true ∧
    (((datastoreMetrics.map fun m => datastoreSampleOf m [dcName] d).zip datastoreMetrics).all
        fun p => p.1.labelValues.length == p.2.labelNames.length) = true ∧
    (((hostMetricsView.map fun m => hostSampleOf m [] h).zip hostMetricsView).all
        fun p => p.1.labelValues.length == p.2.labelNames.length) = true ∧
    (((hostMetricsPerObj.map fun m => hostSampleOf m [dcName, clusterName] h).zip
        hostMetricsPerObj).all
        fun p => p.1.labelValues.length == p.2.labelNames.length) = true :=
  ⟨rfl, rfl, rfl, rfl⟩

/-- Claim C7: each of the three connection-state flag extractors returns
0 or 1, and at most one of them returns 1 on any host snapshot, since all
three compare the same field against distinct constants. -/
theorem stateFlags_mutuallyExclusive (h : HostSystem) :
    (getConnectedState h = 0 ∨ getConnectedState h = 1) ∧
    (getDisconnectedState h = 0 ∨ getDisconnectedState h = 1) ∧
    (getNotRespondingState h = 0 ∨ getNotRespondingState h = 1) ∧
    getConnectedState h + getDisconnectedState h + getNotRespondingState h ≤ 1 := by
  unfold getConnectedState getDisconnectedState getNotRespondingState
  split_ifs <;> simp_all

/-- Whether string `n` begins with string `p`, computed on the character
lists (chosen over `String.startsWith`, which does not reduce in the
kernel). -/
def prefixedBy (n p : String) : Bool := p.data.isPrefixOf n.data

/-- Counterexample for claim C8: the scrape-level availability gauge is
named `vcenter_available`; it does not carry the `vsphere_` namespace
prefix the claim requires of every scrape-level up/availability gauge. -/
theorem metricNamePrefixes_counterexample :
    (availabilitySample 0).name = "vcenter_available" ∧
    prefixedBy (availabilitySample 0).name "vsphere_" = false := by
  decide

/-- Claim C8 (amended): every host metric name begins with `esxi_`, every
datastore metric name begins with `datastore_`, and the up gauge carries
the `vsphere_` namespace prefix; the availability gauge, however, is named
`vcenter_available` and carries no `vsphere_` prefix. -/
theorem metricNamePrefixes_amended (e : ExporterState) (v : Int) :
    ((hostMetrics.map HostMetric.name).all fun n => prefixedBy n "esxi_") = true ∧
    ((datastoreMetrics.map DatastoreMetric.name).all fun n => prefixedBy n "datastore_") = true ∧
    prefixedBy (upSample e).name "vsphere_" = true ∧
    (availabilitySample v).name = "vcenter_available" ∧
    prefixedBy (availabilitySample v).name "vsphere_" = false :=
  ⟨rfl, rfl, rfl, rfl, rfl⟩

/-- Counterexample for claim C1: on a poll whose datacenter listing fails,
the emitted stream has exactly one sample, but that sample is not the
availability sample — no sample named `vcenter_available` occurs at all. -/
theorem collect_dcFailure_counterexample :
    (Collect newExporterState { datacentersResult := none } []).1.length = 1 ∧
    (Collect newExporterState { datacentersResult := none } []).1 ≠ [availabilitySample 0] ∧
    ((Collect newExporterState { datacentersResult := none } []).1.countP
      fun s => s.name == "vcenter_available") = 0 := by
  decide

/-- Claim C1 (amended): for every poll in which the datacenter-listing
call fails, the emitted stream contains exactly one sample — the up gauge
sample `vsphere_up` — and no host, datastore or availability sample; the
shared availability value is set to 0 but is not emitted in that poll. -/
theorem collect_dcFailure_amended (e : ExporterState) (env : CollectEnv) (sched : List Nat)
    (h : env.datacentersResult = none) :
    (Collect e env sched).1 = [upSample e] ∧
    (upSample e).name = "vsphere_up" ∧
    (∀ s ∈ (Collect e env sched).1, s.name ≠ "vcenter_available") ∧
    (Collect e env sched).2.vcenterAvailable = 0 := by
  simp [Collect, h, upSample]

/-- Witness for claim C1's amended theorem at a concrete failing poll. -/
theorem collect_dcFailure_amended_witness :
    ({ datacentersResult := none } : CollectEnv).datacentersResult = none ∧
    ((Collect newExporterState { datacentersResult := none } []).1 =
        [upSample newExporterState] ∧
      (upSample newExporterState).name = "vsphere_up" ∧
      (∀ s ∈ (Collect newExporterState { datacentersResult := none } []).1,
        s.name ≠ "vcenter_available") ∧
      (Collect newExporterState { datacentersResult := none } []).2.vcenterAvailable = 0) :=
  ⟨rfl, collect_dcFailure_amended newExporterState { datacentersResult := none } [] rfl⟩

/-- Shape of a successful poll's stream: the up gauge first, the merged
task samples, and the availability sample last. -/
theorem stream_shape (e : ExporterState) (obs : List Sample) (v : Int)
    (hobs : ∀ s ∈ obs, s.name ≠ "vcenter_available") :
    ((upSample e :: (obs ++ [availabilitySample v])).getLast? =
        some (availabilitySample v)) ∧
    (((upSample e :: (obs ++ [availabilitySample v])).countP
        fun s => s.name == "vcenter_available") = 1) ∧
    (∀ s ∈ (upSample e :: (obs ++ [availabilitySample v])).dropLast,
        s.name ≠ "vcenter_available") := by
  have hne : ∀ s ∈ upSample e :: obs, (s.name == "vcenter_available") = false := by
    intro s hsmem
    rcases List.mem_cons.mp hsmem with rfl | hsmem
    · rfl
    · exact beq_eq_false_iff_ne.mpr (hobs s hsmem)
  refine ⟨?_, ?_, ?_⟩
  · rw [← List.cons_append]
    exact List.getLast?_concat _
  · rw [← List.cons_append, List.countP_append]
    have h0 : ((upSample e :: obs).countP fun s => s.name == "vcenter_available") = 0 :=
      List.countP_eq_zero.mpr fun a ha => by rw [hne a ha]; simp
    rw [h0]
    rfl
  · rw [← List.cons_append, List.dropLast_concat]
    intro s hsmem
    exact beq_eq_false_iff_ne.mp (hne s hsmem)

/-- Claim C5: in every poll where datacenter listing succeeds, the
availability sample is emitted exactly once, after every spawned
collection task's samples, as the last sample of the stream; no object
sample follows it. -/
theorem availabilitySample_last (e : ExporterState) (env : CollectEnv)
    (sched : List Nat) (dcs : List DatacenterEnv)
    (hdc : env.datacentersResult = some dcs) :
    ((Collect e env sched).1.getLast? =
        some (availabilitySample (Collect e env sched).2.vcenterAvailable)) ∧
    (((Collect e env sched).1.countP fun s => s.name == "vcenter_available") = 1) ∧
    (∀ s ∈ (Collect e env sched).1.dropLast, s.name ≠ "vcenter_available") := by
  have hrw : Collect e env sched =
      (upSample e :: (evSamples (mergeBySchedule sched (dcs.flatMap dcTaskEvs)) ++
          [availabilitySample
            ((mergeBySchedule sched (dcs.flatMap dcTaskEvs)).foldl applyEv 1)]),
        { e with vcenterAvailable :=
            (mergeBySchedule sched (dcs.flatMap dcTaskEvs)).foldl applyEv 1 }) := by
    simp [Collect, hdc]
  rw [hrw]
  exact stream_shape e _ _ fun s hsm => evSamples_collect_ne_avail hsm

/-- Witness for claim C5's theorem at a concrete successful poll. -/
theorem availabilitySample_last_witness :
    (({ datacentersResult := some [] } : CollectEnv).datacentersResult =
        some ([] : List DatacenterEnv)) ∧
    (((Collect newExporterState { datacentersResult := some [] } []).1.getLast? =
        some (availabilitySample
          (Collect newExporterState { datacentersResult := some [] } []).2.vcenterAvailable)) ∧
      (((Collect newExporterState { datacentersResult := some [] } []).1.countP
          fun s => s.name == "vcenter_available") = 1) ∧
      (∀ s ∈ (Collect newExporterState { datacentersResult := some [] } []).1.dropLast,
          s.name ≠ "vcenter_available")) :=
  ⟨rfl, availabilitySample_last newExporterState { datacentersResult := some [] } [] [] rfl⟩

/-- Claim C9: when every listed partition is empty (zero clusters, or
clusters with zero hosts, and zero datastores), the poll completes, emits
zero object samples, and the availability value remains 1. -/
theorem emptyPartitions_ok (e : ExporterState) (env : CollectEnv) (sched : List Nat)
    (dcs : List DatacenterEnv)
    (h1 : env.datacentersResult = some dcs)
    (h2 : ∀ d ∈ dcs, d.allPartitionsEmpty = true) :
    (Collect e env sched).1 = [upSample e, availabilitySample 1] ∧
    (Collect e env sched).2.vcenterAvailable = 1 := by
  have hcall : ∀ ev ∈ mergeBySchedule sched (dcs.flatMap dcTaskEvs), ∃ t, ev = Ev.call t := by
    intro ev hev
    have hmem := (mergeBySchedule_perm sched (dcs.flatMap dcTaskEvs)).mem_iff.mp hev
    rcases List.mem_flatten.mp hmem with ⟨evs, hevs, hin⟩
    rcases List.mem_flatMap.mp hevs with ⟨d, hd, hdin⟩
    exact dcTask_calls_of_empty (h2 d hd) hdin hin
  have hsamp : evSamples (mergeBySchedule sched (dcs.flatMap dcTaskEvs)) = [] := by
    rw [evSamples, List.filterMap_eq_nil_iff]
    intro ev hev
    rcases hcall ev hev with ⟨t, rfl⟩
    rfl
  have hfold : (mergeBySchedule sched (dcs.flatMap dcTaskEvs)).foldl applyEv 1 = 1 := by
    apply foldl_applyEv_of_writes
    intro v hv
    rcases hcall _ hv with ⟨t, ht⟩
    exact absurd ht (by simp)
  constructor
  · simp [Collect, h1, hsamp, hfold]
  · simp [Collect, h1, hfold]

/-- A datacenter environment whose two partitions exist but are empty:
one cluster with zero member hosts, and zero datastores. -/
def emptyDcEnv : DatacenterEnv :=
  { name := "dc1"
    clustersResult := some [{ name := "c1", hostsResult := some [], retrieveResult := none }]
    hostSched := [], datastoresResult := some [], dsRetrieveResult := none }

/-- Witness for claim C9's theorem at a concrete empty inventory. -/
theorem emptyPartitions_ok_witness :
    (({ datacentersResult := some [emptyDcEnv] } : CollectEnv).datacentersResult =
        some [emptyDcEnv]) ∧
    (∀ d ∈ [emptyDcEnv], d.allPartitionsEmpty = true) ∧
    ((Collect newExporterState { datacentersResult := some [emptyDcEnv] } []).1 =
        [upSample newExporterState, availabilitySample 1] ∧
      (Collect newExporterState
          { datacentersResult := some [emptyDcEnv] } []).2.vcenterAvailable = 1) :=
  ⟨rfl, by decide,
    emptyPartitions_ok newExporterState { datacentersResult := some [emptyDcEnv] } []
      [emptyDcEnv] rfl (by decide)⟩

/-- A datacenter environment whose datastore listing fails. -/
def dsFailEnv : DatacenterEnv :=
  { name := "dc1", clustersResult := none, hostSched := []
    datastoresResult := none, dsRetrieveResult := none }

/-- Counterexample for claim C2: after a successful bulk retrieval, the
container-view host collection task writes 1 — not 0 — to the shared
availability value. -/
theorem availabilityWrites_counterexample :
    ((availWrites (collectHostMetricsView (some [testHost]))).all fun v => v == 0) = false ∧
    availWrites (collectHostMetricsView (some [testHost])) = [1] := by
  decide

/-- The finder-based datastore task never writes the shared availability
value: its failure branches return without touching it. -/
theorem availWrites_datastore_task (dcName : String) (d : DatacenterEnv) :
    availWrites (collectDatastoreMetrics dcName d) = [] := by
  rcases hds : d.datastoresResult with _ | refs
  · rw [collectDatastoreMetrics, hds]
    rfl
  · rcases refs with _ | ⟨r, rs⟩
    · rw [collectDatastoreMetrics, hds]
      rfl
    · rcases hrr : d.dsRetrieveResult with _ | ds
      · rw [collectDatastoreMetrics, hds, hrr]
        simp [availWrites]
      · have h4 : availWrites (collectDatastoreMetrics dcName d) =
            availWrites (ds.flatMap fun dd =>
              datastoreMetrics.map fun m => Ev.emit (datastoreSampleOf m [dcName] dd)) := by
          rw [collectDatastoreMetrics, hds, hrr]
          simp [availWrites]
        rw [h4, availWrites_emits]

/-- The container-view host task writes exactly 1 on success. -/
theorem availWrites_hostView_some (hs : List HostSystem) :
    availWrites (collectHostMetricsView (some hs)) = [1] := by
  have h2 : availWrites (collectHostMetricsView (some hs)) =
      1 :: availWrites (hs.flatMap fun h =>
        hostMetricsView.map fun m => Ev.emit (hostSampleOf m [] h)) := rfl
  rw [h2, availWrites_emits]

/-- Claim C2 (amended): after datacenter listing succeeds, the
container-view host task writes 1 on a successful fetch and 0 on a failed
fetch, while the finder-based datastore task never writes the shared
availability value; consequently, in a poll whose datastore partition
fails while its host partition succeeds, the succeeding partition's
samples are all present (the merged stream's emissions are exactly the
host samples) but the final availability value is 1, not 0, under every
schedule. -/
theorem availabilityWrites_amended :
    (∀ hs : List HostSystem, availWrites (collectHostMetricsView (some hs)) = [1]) ∧
    availWrites (collectHostMetricsView none) = [0] ∧
    (∀ (dcName : String) (d : DatacenterEnv),
        availWrites (collectDatastoreMetrics dcName d) = []) ∧
    (∀ (hs : List HostSystem) (dcName : String) (d : DatacenterEnv) (sched : List Nat),
      d.datastoresResult = none →
      ((evSamples (mergeBySchedule sched
            [collectHostMetricsView (some hs), collectDatastoreMetrics dcName d])).Perm
          (hs.flatMap fun h => hostMetricsView.map fun m => hostSampleOf m [] h) ∧
        (mergeBySchedule sched
            [collectHostMetricsView (some hs), collectDatastoreMetrics dcName d]).foldl
          applyEv 1 = 1)) := by
  refine ⟨availWrites_hostView_some, rfl, availWrites_datastore_task, ?_⟩
  intro hs dcName d sched hds
  have h5 : collectDatastoreMetrics dcName d = [Ev.call "DatastoreList"] := by
    rw [collectDatastoreMetrics, hds]
  rw [h5]
  have hperm := mergeBySchedule_perm sched
    [collectHostMetricsView (some hs), [Ev.call "DatastoreList"]]
  have htasks : ([collectHostMetricsView (some hs),
      [Ev.call "DatastoreList"]] : List (List Ev)).flatten =
      collectHostMetricsView (some hs) ++ [Ev.call "DatastoreList"] := by
    simp
  constructor
  · have hP : (evSamples (mergeBySchedule sched
        [collectHostMetricsView (some hs), [Ev.call "DatastoreList"]])).Perm
        (evSamples (collectHostMetricsView (some hs) ++ [Ev.call "DatastoreList"])) := by
      have h6 := hperm.filterMap fun ev =>
        match ev with
        | Ev.emit s => some s
        | _ => none
      rw [htasks] at h6
      exact h6
    rw [evSamples_append] at hP
    have h7 : evSamples (collectHostMetricsView (some hs)) =
        hs.flatMap fun h => hostMetricsView.map fun m => hostSampleOf m [] h := by
      have h8 : evSamples (collectHostMetricsView (some hs)) =
          evSamples (hs.flatMap fun h =>
            hostMetricsView.map fun m => Ev.emit (hostSampleOf m [] h)) := rfl
      rw [h8, evSamples_emits]
    rw [h7] at hP
    have h9 : evSamples [Ev.call "DatastoreList"] = ([] : List Sample) := rfl
    rw [h9, List.append_nil] at hP
    exact hP
  · apply foldl_applyEv_of_writes
    intro v hv
    have hv2 := hperm.mem_iff.mp hv
    rw [htasks] at hv2
    rcases List.mem_append.mp hv2 with hone | htwo
    · have hmem : v ∈ availWrites (collectHostMetricsView (some hs)) :=
        mem_availWrites.mpr hone
      rw [availWrites_hostView_some] at hmem
      simpa using hmem
    · simp at htwo

/-- Witness for claim C2's amended theorem: one succeeding host partition
and one failing datastore partition, under the canonical schedule. -/
theorem availabilityWrites_amended_witness :
    dsFailEnv.datastoresResult = none ∧
    ((evSamples (mergeBySchedule []
          [collectHostMetricsView (some [testHost]),
           collectDatastoreMetrics "dc1" dsFailEnv])).Perm
        ([testHost].flatMap fun h => hostMetricsView.map fun m => hostSampleOf m [] h) ∧
      (mergeBySchedule []
          [collectHostMetricsView (some [testHost]),
           collectDatastoreMetrics "dc1" dsFailEnv]).foldl applyEv 1 = 1) :=
  ⟨rfl, availabilityWrites_amended.2.2.2 [testHost] "dc1" dsFailEnv [] rfl⟩

/-- Counterexample for claim C6: the per-object revision of
`collectHostMetrics` issues one `host.Properties` retrieval per member
host — two calls for a two-host cluster, not one bulk call. -/
theorem retrievalCalls_counterexample :
    propertyRetrievalCalls (collectHostMetricsPerObject "dc1"
        (some [{ name := "c1", hostsResult := some [some testHost, some testHost] }])) = 2 ∧
    ¬ propertyRetrievalCalls (collectHostMetricsPerObject "dc1"
        (some [{ name := "c1", hostsResult := some [some testHost, some testHost] }])) = 1 := by
  decide

/-- Retrieval calls of the per-host loop body: one per member host. -/
theorem retrievalCalls_perHost (dcName cName : String) :
    ∀ hres : List (Option HostSystem),
      propertyRetrievalCalls (hres.flatMap fun r =>
        Ev.call "Properties" ::
        hostMetricsPerObj.map fun m =>
          Ev.emit (hostSampleOf m [dcName, cName] (r.getD zeroHostSystem))) = hres.length
  | [] => rfl
  | r :: rest => by
      rw [List.flatMap_cons, propertyRetrievalCalls, List.countP_append, List.countP_cons]
      have h1 : (hostMetricsPerObj.map fun m =>
          Ev.emit (hostSampleOf m [dcName, cName] (r.getD zeroHostSystem))).countP
          Ev.isPropertyRetrieval = 0 :=
        retrievalCalls_emitMap hostMetricsPerObj fun m =>
          hostSampleOf m [dcName, cName] (r.getD zeroHostSystem)
      rw [h1]
      have h2 := retrievalCalls_perHost dcName cName rest
      rw [propertyRetrievalCalls] at h2
      rw [h2]
      simp [Ev.isPropertyRetrieval]
      omega

/-- Claim C6 (amended): the bulk paths — `collectHostMetricFromCluster`
and the finder `collectDatastoreMetrics` — perform exactly one
property-retrieval round trip per non-empty partition, independent of the
number of member objects; the per-object revision of
`collectHostMetrics`, however, performs one `host.Properties` retrieval
per member host. -/
theorem retrievalCalls_amended :
    (∀ (dcName : String) (c : ClusterEnv) (hosts : List String),
        c.hostsResult = some hosts → hosts ≠ [] →
        propertyRetrievalCalls (collectHostMetricFromCluster dcName c) = 1) ∧
    (∀ (dcName : String) (d : DatacenterEnv) (dsRefs : List String),
        d.datastoresResult = some dsRefs → dsRefs ≠ [] →
        propertyRetrievalCalls (collectDatastoreMetrics dcName d) = 1) ∧
    (∀ (dcName cName : String) (hres : List (Option HostSystem)),
        propertyRetrievalCalls (collectHostMetricsPerObject dcName
          (some [{ name := cName, hostsResult := some hres }])) = hres.length) := by
  refine ⟨?_, ?_, ?_⟩
  · intro dcName c hosts hcr hne
    rcases hosts with _ | ⟨hh, ht⟩
    · exact absurd rfl hne
    · rcases hrr : c.retrieveResult with _ | hs
      · rw [collectHostMetricFromCluster, hcr, hrr]
        simp [propertyRetrievalCalls, List.countP_cons, Ev.isPropertyRetrieval]
      · rw [collectHostMetricFromCluster, hcr, hrr]
        simp [propertyRetrievalCalls, List.countP_cons, Ev.isPropertyRetrieval,
          countP_retrieval_emits]
  · intro dcName d dsRefs hds hne
    rcases dsRefs with _ | ⟨rh, rt⟩
    · exact absurd rfl hne
    · rcases hrr : d.dsRetrieveResult with _ | ds
      · rw [collectDatastoreMetrics, hds, hrr]
        simp [propertyRetrievalCalls, List.countP_cons, Ev.isPropertyRetrieval]
      · rw [collectDatastoreMetrics, hds, hrr]
        simp [propertyRetrievalCalls, List.countP_cons, Ev.isPropertyRetrieval,
          countP_retrieval_emits]
  · intro dcName cName hres
    have hsp : collectHostMetricsPerObject dcName
        (some [{ name := cName, hostsResult := some hres }]) =
        Ev.call "ClusterList" :: Ev.call "Hosts" ::
          (hres.flatMap fun r => Ev.call "Properties" ::
            hostMetricsPerObj.map fun m =>
              Ev.emit (hostSampleOf m [dcName, cName] (r.getD zeroHostSystem))) := by
      rw [collectHostMetricsPerObject]
      simp [collectHostMetricsPerObjectLoop]
    rw [hsp]
    have hstep : propertyRetrievalCalls (Ev.call "ClusterList" :: Ev.call "Hosts" ::
        (hres.flatMap fun r => Ev.call "Properties" ::
          hostMetricsPerObj.map fun m =>
            Ev.emit (hostSampleOf m [dcName, cName] (r.getD zeroHostSystem)))) =
        propertyRetrievalCalls (hres.flatMap fun r => Ev.call "Properties" ::
          hostMetricsPerObj.map fun m =>
            Ev.emit (hostSampleOf m [dcName, cName] (r.getD zeroHostSystem))) := by
      rw [propertyRetrievalCalls, propertyRetrievalCalls, List.countP_cons, List.countP_cons]
      simp [Ev.isPropertyRetrieval]
    rw [hstep, retrievalCalls_perHost]

/-- Witness for claim C6's amended theorem: a one-host bulk cluster fetch
performs exactly one retrieval call. -/
theorem retrievalCalls_amended_witness :
    (({ name := "c1", hostsResult := some ["h1"], retrieveResult := some [testHost] } :
        ClusterEnv).hostsResult = some ["h1"]) ∧
    (["h1"] : List String) ≠ [] ∧
    propertyRetrievalCalls (collectHostMetricFromCluster "dc1"
      { name := "c1", hostsResult := some ["h1"], retrieveResult := some [testHost] }) = 1 :=
  ⟨rfl, by decide, retrievalCalls_amended.1 "dc1"
    { name := "c1", hostsResult := some ["h1"], retrieveResult := some [testHost] } ["h1"]
    rfl (by decide)⟩

end Vsphere
